import Mathlib

/-!
Shallow embedding, in Lean 4, of the real-time chat core of this repository:
the Redis-backed message timeline store (`data/redisDataLayer.js`), the
session registry (`services/sessionService.js`) and the socket connection
layer (`sockets/chat.js`).  Pure data and control flow are translated
directly from the JavaScript source; each `await`ed Redis command is modelled
as an atomic operation on an explicit store value, and the claims are settled
as theorems about these definitions.
-/

set_option autoImplicit false

namespace Chat

/-! ## Message timeline store (`data/redisDataLayer.js`)

A Redis sorted set (`zset`) is modelled as a list of `(score, member)` pairs
kept sorted ascending by `(score, member)`, which is exactly the order Redis
maintains: by score, with ties broken by the lexicographic order of the
member string.  `room:{roomId}:messages` is such a zset mapping timestamps to
message ids; `message:{id}` hashes are an association list.
-/

/-- A `message:{messageId}` hash record, as written by `createMessage` and
read back by `getMessage`. -/
structure Msg where
  id : String
  room : String
  type : String
  content : String
  sender : String
  file : Option String
  aiType : Option String
  timestamp : Nat
  isDeleted : Bool
deriving DecidableEq, Repr

/-- Strict key order on zset entries: by score, ties by member string. -/
def zentLt (a b : Nat × String) : Prop :=
  a.1 < b.1 ∨ (a.1 = b.1 ∧ a.2 < b.2)

instance zentLtDec : DecidableRel zentLt := fun a b => by
  unfold zentLt; infer_instance

/-- `ZADD key score member`: insert an entry keeping the list sorted by
`(score, member)`; re-adding an existing member at the same score is a
no-op (Redis would update the score; the source only ever adds fresh
message ids). -/
def zaddInsert (score : Nat) (member : String) : List (Nat × String) → List (Nat × String)
  | [] => [(score, member)]
  | e :: es =>
    if zentLt (score, member) e then (score, member) :: e :: es
    else if e = (score, member) then e :: es
    else e :: zaddInsert score member es

/-- Whether an entry's score lies at or below the (inclusive) upper score
bound of a range query; `none` stands for `+inf`. -/
def cursorPred (max : Option Nat) (e : Nat × String) : Bool :=
  match max with
  | none => true
  | some m => decide (e.1 ≤ m)

/-- `ZREVRANGEBYSCORE key max -inf LIMIT 0 count`: entries in descending
`(score, member)` order, keeping those with score `≤ max` (`none` stands for
`+inf`; the bound is inclusive, as in Redis when the score carries no open
paren prefix), truncated to the first `count` members. -/
def zrevrangebyscore (entries : List (Nat × String)) (max : Option Nat)
    (count : Nat) : List String :=
  ((entries.reverse.filter (cursorPred max)).map Prod.snd).take count

/-- The per-room slice of the Redis store that the timeline functions touch:
the `room:{roomId}:messages` index, the `message:{id}` hashes, and whether
the index key currently holds a value of the wrong structural kind (the
`keyType !== 'zset' && keyType !== 'none'` corruption case). -/
structure RoomStore where
  index : List (Nat × String)
  msgs : List (String × Msg)
  indexCorrupt : Bool
deriving DecidableEq, Repr

def RoomStore.empty : RoomStore := ⟨[], [], false⟩

/-- `getMessage(messageId)`: read the `message:{id}` hash; an absent hash
(`hGetAll` giving `{}`) yields `null`.  Its internal `try/catch` also turns a
thrown store error into `null`; the fault-free reading is given here and the
faulty one in `getMessageF` below. -/
def getMessage (st : RoomStore) (messageId : String) : Option Msg :=
  (st.msgs.find? fun e => e.1 = messageId).map Prod.snd

/-- The result shape of `getMessagesForRoom`:
`{messages, hasMore, oldestTimestamp}`. -/
structure Page where
  messages : List Msg
  hasMore : Bool
  oldestTimestamp : Option Nat
deriving DecidableEq, Repr

def emptyPage : Page := ⟨[], false, none⟩

/-- `const maxScore = beforeTimestamp || '+inf'`: a `null` — or, by JS
truthiness, zero — cursor means the query is unbounded. -/
def maxScoreOf (beforeTimestamp : Option Nat) : Option Nat :=
  match beforeTimestamp with
  | some t => if t = 0 then none else some t
  | none => none

/-- `validMessages.sort((a, b) => a.timestamp - b.timestamp)`: stable
ascending sort by timestamp (insertion of the earlier element in front of
equal-timestamp elements keeps the JS stable-sort behaviour). -/
def insertByTs (m : Msg) : List Msg → List Msg
  | [] => [m]
  | x :: xs => if m.timestamp ≤ x.timestamp then m :: x :: xs else x :: insertByTs m xs

def sortByTs (l : List Msg) : List Msg := l.foldr insertByTs []

/-- `createMessage(roomId, {type, content, sender, fileId, aiType})`:
reset the index key if it holds the wrong kind, then write the
`message:{id}` hash and `ZADD` the `(timestamp, messageId)` index entry.
The fresh uuid and `Date.now()` are passed in as `messageId` and `now`. -/
def createMessage (st : RoomStore) (roomId messageId : String) (now : Nat)
    (type content sender : String) (fileId aiType : Option String) : RoomStore :=
  let msgData : Msg :=
    { id := messageId
      room := roomId
      type := type
      content := content
      sender := sender
      timestamp := now
      isDeleted := false
      file := if type = "file" then fileId else none
      aiType := if type = "ai" then aiType else none }
  let st := if st.indexCorrupt then { st with index := [], indexCorrupt := false } else st
  { st with
    msgs := (messageId, msgData) :: st.msgs
    index := zaddInsert now messageId st.index }

/-- `getMessagesForRoom(roomId, beforeTimestamp = null, limit = 30)`:
if the index key holds the wrong kind, delete it and return the empty page;
otherwise fetch `limit + 1` ids descending from the cursor, report
`hasMore` when more than `limit` came back, resolve the first `limit` ids
(dropping unresolved ones), sort ascending by timestamp and report the
first timestamp (or `null`, also when that timestamp is `0`, by the
`... || null` coercion) as `oldestTimestamp`. -/
def getMessagesForRoom (st : RoomStore) (beforeTimestamp : Option Nat)
    (limit : Nat) : Page × RoomStore :=
  if st.indexCorrupt then
    (emptyPage, { st with index := [], indexCorrupt := false })
  else
    let messageIds := zrevrangebyscore st.index (maxScoreOf beforeTimestamp) (limit + 1)
    if messageIds = [] then (emptyPage, st)
    else
      let hasMore := decide (messageIds.length > limit)
      let resultIds := messageIds.take limit
      let validMessages := resultIds.filterMap (getMessage st)
      let sorted := sortByTs validMessages
      let oldest :=
        match sorted.head? with
        | some m => if m.timestamp = 0 then none else some m.timestamp
        | none => none
      (⟨sorted, hasMore, oldest⟩, st)

/-- The room of the concrete pagination scenario: messages `m1`, `m2`, `m3`
appended at timestamps 100, 200, 300. -/
def scenarioStore : RoomStore :=
  createMessage (createMessage (createMessage RoomStore.empty
    "R" "m1" 100 "text" "one" "u1" none none)
    "R" "m2" 200 "text" "two" "u1" none none)
    "R" "m3" 300 "text" "three" "u1" none none

/-- The number of index entries lying at or before the query cursor of a
`getMessagesForRoom` call (the quantity whose comparison with `limit`
drives `hasMore`). -/
def entriesAtOrBefore (st : RoomStore) (beforeTimestamp : Option Nat) : Nat :=
  (st.index.filter (cursorPred (maxScoreOf beforeTimestamp))).length

/-- The `message:{m2}` record of the scenario store, as `getMessage`
returns it. -/
def scenarioMsg2 : Msg :=
  ⟨"m2", "R", "text", "two", "u1", none, none, 200, false⟩

/-! ## Session registry (`services/sessionService.js`)

All four record kinds are per user except the reverse `sessionId:{sid}`
lookup, which is keyed by the opaque session id; the store below is the
slice for one fixed user.  Redis string values set with a TTL live until
deleted; TTL-based expiry itself is expressed by the explicit
`now - lastActivity > SESSION_TTL * 1000` check that `validateSession`
performs (the sliding-TTL re-writes refresh `lastActivity` accordingly). -/

structure Metadata where
  userAgent : String
  ipAddress : String
  deviceInfo : String
deriving DecidableEq, Repr

/-- The JSON object stored under `session:{userId}`. -/
structure SessionData where
  userId : String
  sessionId : String
  createdAt : Nat
  lastActivity : Nat
  metadata : Metadata
deriving DecidableEq, Repr

/-- All session records touched for one user: `session:{u}`,
`sessionId:{sid} -> u` (an association list over session ids),
`active_session:{u}` and `user_sessions:{u}`. -/
structure SessStore where
  sessionKey : Option SessionData
  sessionIdKeys : List (String × String)
  activeSessionKey : Option String
  userSessionsKey : Option String
deriving DecidableEq, Repr

def SessStore.empty : SessStore := ⟨none, [], none, none⟩

/-- `DEL` on the association-list keyspace. -/
def kvDel (l : List (String × String)) (k : String) : List (String × String) :=
  l.filter fun e => e.1 ≠ k

/-- `SET` on the association-list keyspace. -/
def kvSet (l : List (String × String)) (k v : String) : List (String × String) :=
  (k, v) :: kvDel l k

/-- `GET` on the association-list keyspace. -/
def kvGet (l : List (String × String)) (k : String) : Option String :=
  (l.find? fun e => e.1 = k).map Prod.snd

def SESSION_TTL : Nat := 24 * 60 * 60

/-- `removeAllUserSessions(userId)`: read `user_sessions:{u}` to learn the
old session id, then delete `session:{u}`, `user_sessions:{u}`,
`active_session:{u}`, and — when an old id was recorded —
`sessionId:{oldSessionId}`. -/
def removeAllUserSessions (st : SessStore) : SessStore :=
  let oldSessionId := st.userSessionsKey
  { sessionKey := none
    userSessionsKey := none
    activeSessionKey := none
    sessionIdKeys :=
      match oldSessionId with
      | some sid => kvDel st.sessionIdKeys sid
      | none => st.sessionIdKeys }

/-- `createSession(userId, metadata)`: remove all existing sessions for the
user, then write the four records for a fresh session id (passed in as
`newSid`, standing for the random `generateSessionId()` value) with
`createdAt = lastActivity = Date.now()`. -/
def createSession (st : SessStore) (userId : String) (now : Nat)
    (newSid : String) (meta : Metadata) : SessStore × String :=
  let st := removeAllUserSessions st
  let sessionData : SessionData :=
    { userId := userId, sessionId := newSid, createdAt := now
      lastActivity := now, metadata := meta }
  ({ sessionKey := some sessionData
     sessionIdKeys := kvSet st.sessionIdKeys newSid userId
     activeSessionKey := some newSid
     userSessionsKey := some newSid }, newSid)

inductive ValidateError
  | invalidParameters
  | invalidSession
  | sessionNotFound
  | sessionExpired
deriving DecidableEq, Repr

structure ValidateResult where
  isValid : Bool
  error : Option ValidateError
deriving DecidableEq, Repr

/-- `validateSession(userId, sessionId)`, branch for branch from the source:
falsy parameters are rejected untouched; an absent or mismatched
`active_session:{u}` pointer wipes every session record and reports
`INVALID_SESSION`; absent `session:{u}` data reports `SESSION_NOT_FOUND`
(leaving the store as it is); an over-TTL idle time wipes and reports
`SESSION_EXPIRED`; otherwise `lastActivity` is refreshed and all four
records are re-written. -/
def validateSession (st : SessStore) (userId sessionId : String) (now : Nat) :
    ValidateResult × SessStore :=
  if userId = "" ∨ sessionId = "" then
    (⟨false, some .invalidParameters⟩, st)
  else
    match st.activeSessionKey with
    | none => (⟨false, some .invalidSession⟩, removeAllUserSessions st)
    | some activeSessionId =>
      if activeSessionId ≠ sessionId then
        (⟨false, some .invalidSession⟩, removeAllUserSessions st)
      else
        match st.sessionKey with
        | none => (⟨false, some .sessionNotFound⟩, st)
        | some sessionData =>
          if now - sessionData.lastActivity > SESSION_TTL * 1000 then
            (⟨false, some .sessionExpired⟩, removeAllUserSessions st)
          else
            let sessionData := { sessionData with lastActivity := now }
            (⟨true, none⟩,
             { sessionKey := some sessionData
               activeSessionKey := some sessionId
               userSessionsKey := some sessionId
               sessionIdKeys := kvSet st.sessionIdKeys sessionId userId })

/-- A user's session records are fully wiped: the three per-user keys are
gone (`removeAllUserSessions` also drops the reverse `sessionId` key it
found recorded). -/
def SessStore.wiped (st : SessStore) : Prop :=
  st.sessionKey = none ∧ st.activeSessionKey = none ∧ st.userSessionsKey = none

instance (st : SessStore) : Decidable st.wiped := by
  unfold SessStore.wiped; infer_instance

/-! ## Connection-layer constants and retry loop (`sockets/chat.js`) -/

def BATCH_SIZE : Nat := 30
def MAX_RETRIES : Nat := 3
def MESSAGE_LOAD_TIMEOUT : Nat := 10000
def RETRY_DELAY : Nat := 2000
def DUPLICATE_LOGIN_TIMEOUT : Nat := 10000

inductive LoadOutcome
  | loaded
  | retryExhausted
  | failedError
deriving DecidableEq, Repr

/-- `loadMessagesWithRetry`, threading the `messageLoadRetries` entry for the
`(roomId, userId)` key through as `counter` (`none` = absent).  `oracle k`
tells whether the `k`-th underlying `loadMessages` call succeeds.  The
recursion is bounded by `fuel` (4 suffices from a fresh counter, since the
counter strictly climbs to `MAX_RETRIES`); each step mirrors the source:
the `>= MAX_RETRIES` guard (false on an absent entry, as `undefined >= 3`
is false in JS) throws the exhausted error, which its own `catch` re-throws
after deleting the counter; a success deletes the counter; a failure below
`MAX_RETRIES` bumps the counter, sleeps
`min(RETRY_DELAY * 2 ** currentRetries, 10000)` (recorded in the returned
delay list) and recurses; any other failure deletes the counter and
re-throws.  Returns the outcome, the final counter entry and the backoff
delays slept. -/
def loadMessagesWithRetry (oracle : Nat → Bool) :
    Nat → Option Nat → Nat → LoadOutcome × Option Nat × List Nat
  | _, cnt, 0 => (.failedError, cnt, [])
  | attemptIdx, cnt, fuel + 1 =>
    let guardHit :=
      match cnt with
      | some c => decide (c ≥ MAX_RETRIES)
      | none => false
    if guardHit then (.retryExhausted, none, [])
    else if oracle attemptIdx then (.loaded, none, [])
    else
      let currentRetries := cnt.getD 0
      if currentRetries < MAX_RETRIES then
        let delay := min (RETRY_DELAY * 2 ^ currentRetries) 10000
        let r := loadMessagesWithRetry oracle (attemptIdx + 1) (some (currentRetries + 1)) fuel
        (r.1, r.2.1, delay :: r.2.2)
      else
        (.failedError, none, [])

/-! ## Connection-local maps and their cleanup (`sockets/chat.js`) -/

/-- An entry of the `streamingSessions` map, exactly the fields that
`handleAIResponse` stores: note there is no user-id field — the object
created at the start of `handleAIResponse` never records which user
initiated the generation, so the `userId` component below is `none` for
every session the source ever creates (reading an absent JS property
yields `undefined`, modelled as `none`). -/
structure StreamSession where
  room : String
  aiType : String
  content : String
  messageId : String
  timestamp : Nat
  lastUpdate : Nat
  userId : Option String
deriving DecidableEq, Repr

/-- `Map.set` on a string-keyed association list. -/
def mapSet {α : Type} (l : List (String × α)) (k : String) (v : α) :
    List (String × α) :=
  (k, v) :: l.filter fun e => e.1 ≠ k

/-- The connection-local mutable maps of the socket module:
`streamingSessions`, `messageQueues` (a key is present iff set to `true`)
and `messageLoadRetries`. -/
structure ChatLocalState where
  streamingSessions : List (String × StreamSession)
  messageQueues : List String
  messageLoadRetries : List (String × Nat)
deriving DecidableEq, Repr

def ChatLocalState.empty : ChatLocalState := ⟨[], [], []⟩

/-- The `streamingSessions.set(messageId, {...})` performed at the top of
`handleAIResponse`: key `{aiName}-{Date.now()}`, no user id recorded. -/
def startStreamingSession (st : ChatLocalState) (roomId aiName : String)
    (now : Nat) : ChatLocalState × String :=
  let messageId := aiName ++ "-" ++ toString now
  ({ st with
     streamingSessions := mapSet st.streamingSessions messageId
       { room := roomId, aiType := aiName, content := "", messageId := messageId
         timestamp := now, lastUpdate := now, userId := none } }, messageId)

/-- The in-memory cleanup block of the `leaveRoom` handler: drop every
streaming session whose `room` equals the left room *and* whose `userId`
property equals the leaving user's id, then delete the
`{roomId}:{userId}` entries of `messageQueues` and `messageLoadRetries`. -/
def leaveRoomCleanup (st : ChatLocalState) (roomId userId : String) :
    ChatLocalState :=
  let queueKey := roomId ++ ":" ++ userId
  { streamingSessions :=
      st.streamingSessions.filter fun e =>
        ¬ (e.2.room = roomId ∧ e.2.userId = some userId)
    messageQueues := st.messageQueues.filter fun k => k ≠ queueKey
    messageLoadRetries := st.messageLoadRetries.filter fun e => e.1 ≠ queueKey }

/-! ## Handshake middleware and duplicate-login arbitration
(`io.use` and `handleDuplicateLogin` in `sockets/chat.js`)

The middleware is sequential `await`-based code; it is embedded as the
ordered list of observable actions it performs. -/

inductive AuthEvent
  | emitDuplicateLogin (targetSocket deviceInfo ipAddress : String)
  | waitMs (ms : Nat)
  | emitSessionEnded (targetSocket : String)
  | disconnectSocket (targetSocket : String)
  | callValidateSession (userId sessionId : String)
  | callGetUserById (userId : String)
  | callUpdateLastActivity (userId : String)
  | acceptConnection (userId : String)
  | rejectConnection (reason : String)
deriving DecidableEq, Repr

/-- The inputs the middleware branches on: whether token and session id are
present, what user id `jwt.verify` resolves (`none` for a missing, malformed
or expired token), whether `connectedUsers` holds a live socket for that
user, the new handshake's device/IP metadata, and the outcomes of the
session validation and user lookup. -/
structure HandshakeCtx where
  tokenPresent : Bool
  sessionId : Option String
  decodedUserId : Option String
  existingSocketId : Option String
  deviceInfo : String
  ipAddress : String
  sessionValid : Bool
  userExists : Bool
deriving DecidableEq, Repr

/-- `handleDuplicateLogin(existingSocket, newSocket)`: notify the existing
connection with the new connection's metadata, then — only after the fixed
`DUPLICATE_LOGIN_TIMEOUT` delay resolves — send `session_ended` and force
the disconnect.  The caller `await`s the returned promise, so the whole
sequence completes before anything after the call runs. -/
def handleDuplicateLogin (existingSocket deviceInfo ipAddress : String) :
    List AuthEvent :=
  [ .emitDuplicateLogin existingSocket deviceInfo ipAddress
  , .waitMs DUPLICATE_LOGIN_TIMEOUT
  , .emitSessionEnded existingSocket
  , .disconnectSocket existingSocket ]

/-- The `io.use` authentication middleware as its ordered action trace:
missing credentials or a failed token decode reject immediately; a live
existing connection runs (and is awaited through) `handleDuplicateLogin`;
then the session is validated, the user loaded, activity refreshed, and
the connection accepted. -/
def authMiddleware (ctx : HandshakeCtx) : List AuthEvent :=
  if ¬ ctx.tokenPresent ∨ ctx.sessionId = none then
    [.rejectConnection "Authentication error"]
  else
    match ctx.decodedUserId, ctx.sessionId with
    | none, _ => [.rejectConnection "Invalid token"]
    | some _, none => [.rejectConnection "Authentication error"]
    | some userId, some sessionId =>
      (match ctx.existingSocketId with
       | some existingSocket =>
         handleDuplicateLogin existingSocket ctx.deviceInfo ctx.ipAddress
       | none => []) ++
      .callValidateSession userId sessionId ::
      (if ¬ ctx.sessionValid then [.rejectConnection "Invalid session"]
       else
         .callGetUserById userId ::
         (if ¬ ctx.userExists then [.rejectConnection "User not found"]
          else [.callUpdateLastActivity userId, .acceptConnection userId]))

/-! ## The `chatMessage` handler, text path (`sockets/chat.js`), and the
repository's own message-model validation (`models/Message.js`) -/

/-- `content?.trim()`: strip leading and trailing whitespace (written over
the character list so that the translation is self-contained). -/
def jsTrim (s : String) : String :=
  String.mk (((s.data.dropWhile Char.isWhitespace).reverse.dropWhile
    Char.isWhitespace).reverse)

/-- The `case 'text'` branch of the `chatMessage` socket handler.  The
participant check and the session re-validation that precede it are passed
in as booleans (their own logic lives in `getRoomById` membership and
`validateSession`); on passing them the handler trims the content, silently
returns on an empty result, and otherwise persists it via
`redisDataLayer.createMessage` — there is no content-length check anywhere
on this path.  Returns the store, whether a message was persisted, and the
error message emitted, if any. -/
def chatMessageTextHandler (st : RoomStore) (roomId userId content : String)
    (isParticipant sessionOk : Bool) (messageId : String) (now : Nat) :
    RoomStore × Bool × Option String :=
  if ¬ isParticipant then (st, false, some "채팅방 접근 권한이 없습니다.")
  else if ¬ sessionOk then (st, false, some "세션이 만료되었습니다. 다시 로그인해주세요.")
  else
    let finalContent := jsTrim content
    if finalContent = "" then (st, false, none)
    else (createMessage st roomId messageId now "text" finalContent userId none none,
          true, none)

/-- `Message.create(messageData)` from `models/Message.js` — the repository's
own validation layer over the same `redisDataLayer.createMessage`: requires
room and sender, defaults the type to `text`, requires non-blank content for
text, a file reference for `file`, an `aiType` for `ai`, and rejects any
content longer than 10000 characters before persisting the trimmed
content. -/
def messageModelCreate (st : RoomStore) (roomId sender type content : String)
    (file aiType : Option String) (messageId : String) (now : Nat) :
    Except String RoomStore :=
  if roomId = "" then .error "Room ID is required"
  else if sender = "" then .error "Sender is required"
  else
    let type := if type = "" then "text" else type
    if type = "text" ∧ jsTrim content = "" then
      .error "Content is required for text messages"
    else if type = "file" ∧ file = none then
      .error "File reference is required for file messages"
    else if type = "ai" ∧ aiType = none then
      .error "AI type is required for AI messages"
    else if content.length > 10000 then
      .error "메시지는 10000자를 초과할 수 없습니다."
    else
      .ok (createMessage st roomId messageId now type (jsTrim content) sender
        file aiType)

/-! ## AI streaming relay (`handleAIResponse` in `sockets/chat.js`) -/

inductive GenEvent
  | aiMessageStart (messageId aiType : String)
  | aiMessageChunk (messageId currentChunk fullContent : String)
  | aiMessageComplete (messageId persistedId content : String)
  | aiMessageError (messageId errMsg : String)
deriving DecidableEq, Repr

/-- How one `aiService.generateResponse` generation ends: the `onComplete`
callback with the final content and token counts, the `onError` callback,
or the generation call rejecting (caught by the surrounding `catch`). -/
inductive GenOutcome
  | complete (content : String) (completionTokens totalTokens : Nat)
  | errorCb (msg : String)
  | thrown (msg : String)
deriving DecidableEq, Repr

/-- The externally observable behaviour of one generation: the chunks
delivered to `onChunk`, then the terminal outcome. -/
structure GenBehavior where
  chunks : List String
  outcome : GenOutcome
deriving DecidableEq, Repr

/-- The `onChunk` loop: append each chunk to the accumulator, refresh the
session's `content` and `lastUpdate`, and broadcast a chunk event. -/
def processChunks (sessions : List (String × StreamSession)) (messageId : String)
    (chunkTime : Nat) : List String → String →
    List (String × StreamSession) × String × List GenEvent
  | [], acc => (sessions, acc, [])
  | c :: cs, acc =>
    let acc := acc ++ c
    let sessions :=
      match sessions.find? (fun e => e.1 = messageId) with
      | some (_, session) =>
        mapSet sessions messageId
          { session with content := acc, lastUpdate := chunkTime }
      | none => sessions
    let r := processChunks sessions messageId chunkTime cs acc
    (r.1, r.2.1, .aiMessageChunk messageId c acc :: r.2.2)

/-- `Map.delete` on a string-keyed association list. -/
def mapDel {α : Type} (l : List (String × α)) (k : String) :
    List (String × α) :=
  l.filter fun e => e.1 ≠ k

/-- `handleAIResponse(io, room, aiName, query)`: register the ephemeral
streaming session under `{aiName}-{Date.now()}`, broadcast the start event,
relay each chunk, and on the terminal outcome: `onComplete` deletes the
session and persists the accumulated final content as a type-`ai` message
(the `metadata` argument it passes is silently dropped by
`redisDataLayer.createMessage`, which never destructures it); `onError` and
the surrounding `catch` delete the session and broadcast an error event
without touching the timeline.  `newMsgId`/`completeTime` stand for the
uuid and `Date.now()` of the persistence step. -/
def handleAIResponse (st : ChatLocalState) (store : RoomStore)
    (roomId aiName : String) (now : Nat) (beh : GenBehavior)
    (newMsgId : String) (completeTime : Nat) :
    ChatLocalState × RoomStore × List GenEvent :=
  let started := startStreamingSession st roomId aiName now
  let st := started.1
  let messageId := started.2
  let chunked := processChunks st.streamingSessions messageId now beh.chunks ""
  let st := { st with streamingSessions := chunked.1 }
  let startEvents := GenEvent.aiMessageStart messageId aiName :: chunked.2.2
  match beh.outcome with
  | .complete content _ _ =>
    let st := { st with streamingSessions := mapDel st.streamingSessions messageId }
    let store := createMessage store roomId newMsgId completeTime "ai" content ""
      none (some aiName)
    (st, store, startEvents ++ [.aiMessageComplete messageId newMsgId content])
  | .errorCb msg =>
    let st := { st with streamingSessions := mapDel st.streamingSessions messageId }
    (st, store, startEvents ++ [.aiMessageError messageId msg])
  | .thrown msg =>
    let st := { st with streamingSessions := mapDel st.streamingSessions messageId }
    (st, store, startEvents ++ [.aiMessageError messageId msg])

/-! ## Store-layer fault model (`getMessagesForRoom` totality, `loadMessages`)

Each store command may fail; a `FaultCfg` records which ones do.  The raw
`cluster.type` and `cluster.zrevrangebyscore` calls of
`getMessagesForRoom` are unwrapped and can reject — its outer `catch`
turns those into the empty page.  Every other step reaches Redis through
the `redisClient` wrapper (`utils/redisClient.js`), whose
`hGetAll`/`get`/`set` catch store errors and return `null`/`false`: a
faulted `hGetAll` inside `getMessage` yields `null` (the message is
dropped, the same shape both the wrapper and `getMessage`'s own `catch`
produce), and the sender/file enhancement and read-marking steps of
`loadMessages` cannot reject at all. -/

structure FaultCfg where
  typeFails : Bool
  zrangeFails : Bool
  msgFail : List String
  userFail : List String
  fileFail : List String
  markReadFails : Bool
  timeoutFires : Bool
deriving DecidableEq, Repr

def FaultCfg.clean : FaultCfg := ⟨false, false, [], [], [], false, false⟩

/-- `getMessage` under faults: a store error of the `message:{id}` read
yields `null` — the wrapper catches it and returns `null`, and
`getMessage`'s own `try/catch` would do the same. -/
def getMessageF (cfg : FaultCfg) (st : RoomStore) (messageId : String) :
    Option Msg :=
  if messageId ∈ cfg.msgFail then none else getMessage st messageId

/-- `getMessagesForRoom` under faults: the `try` body runs the type check,
the corruption reset, the range query and the resolutions in order; a
rejection of the type check or of the range query reaches the outer
`catch`, which returns the empty page (resolution faults never reach it —
`getMessage` already caught them). -/
def getMessagesForRoomF (cfg : FaultCfg) (st : RoomStore)
    (beforeTimestamp : Option Nat) (limit : Nat) : Page × RoomStore :=
  if cfg.typeFails then (emptyPage, st)
  else if st.indexCorrupt then
    (emptyPage, { st with index := [], indexCorrupt := false })
  else if cfg.zrangeFails then (emptyPage, st)
  else
    let messageIds := zrevrangebyscore st.index (maxScoreOf beforeTimestamp) (limit + 1)
    if messageIds = [] then (emptyPage, st)
    else
      let hasMore := decide (messageIds.length > limit)
      let resultIds := messageIds.take limit
      let validMessages := resultIds.filterMap (getMessageF cfg st)
      let sorted := sortByTs validMessages
      let oldest :=
        match sorted.head? with
        | some m => if m.timestamp = 0 then none else some m.timestamp
        | none => none
      (⟨sorted, hasMore, oldest⟩, st)

inductive LoadErr
  | timeout
  | storeError
deriving DecidableEq, Repr

/-- A `user:{id}` hash, as `getUserById` projects it for the enhancement. -/
structure UserRec where
  name : String
  email : String
  profileImage : String
deriving DecidableEq, Repr

/-- `loadMessages(socket, roomId, before, limit)` under faults: race the
page fetch against the `MESSAGE_LOAD_TIMEOUT` timer — a fired timer
rejects with the timeout error, the only rejection the function can
produce.  The steps that follow go through the `redisClient` wrapper:
per message with a non-empty, non-`system` sender, `getUserById` is
called, and a faulted (or missing) `user:{id}` read returns `null`, for
which the handler substitutes the unknown-sender placeholder; a faulted
`getFile` likewise returns `null`, leaving the file reference unenriched;
`markMessagesAsRead` reads with `get` (`null` on error, treated as no
readers) and writes with `set` (`false` on error), so a `markReadFails`
fault silently updates nothing.  The enhanced result pairs each message
with its resolved sender record (`none` marks the unknown-sender
placeholder and the untouched empty/`system` sender). -/
def loadMessagesF (cfg : FaultCfg) (st : RoomStore)
    (users : List (String × UserRec)) (beforeTimestamp : Option Nat)
    (limit : Nat) :
    Except LoadErr (List (Msg × Option UserRec) × Bool × Option Nat) :=
  if cfg.timeoutFires then .error .timeout
  else
    let page := (getMessagesForRoomF cfg st beforeTimestamp limit).1
    .ok (page.messages.map (fun m =>
      (m, if m.sender ≠ "" ∧ m.sender ≠ "system" ∧ ¬ m.sender ∈ cfg.userFail then
            (users.find? (fun e => e.1 = m.sender)).map Prod.snd
          else none)),
      page.hasMore, page.oldestTimestamp)

/-! ## Concrete inputs used by witnesses and counterexamples -/

/-- Empty client metadata (`userAgent`, `ipAddress`, `deviceInfo` all
defaulted to the empty string). -/
def sampleMeta : Metadata := ⟨"", "", ""⟩

/-- A session store in the partially-written state that the spec itself
warns about: the `active_session` and `user_sessions` pointers (and the
reverse lookup) name session `a`, but the `session:{u}` data record is
absent. -/
def sessionDataMissingStore : SessStore :=
  ⟨none, [("a", "u")], some "a", some "a"⟩

/-- Connection-local state of a user `u1` in room `r1` with an in-flight
pagination guard and a retry counter for the `(r1, u1)` pair. -/
def c4Start : ChatLocalState := ⟨[], ["r1:u1"], [("r1:u1", 2)]⟩

/-- The session store after `createSession(u, m1)` (session id `s1`)
followed by `createSession(u, m2)` (session id `s2`), both at time 0. -/
def twoCreateStore : SessStore :=
  (createSession (createSession SessStore.empty "u" 0 "s1" sampleMeta).1
    "u" 0 "s2" sampleMeta).1

/-- A text content of 10001 characters. -/
def bigContent : String := String.mk (List.replicate 10001 'a')

/-- Projection of an `Except` onto its error message, if any. -/
def exceptErrMsg {α : Type} : Except String α → Option String
  | .error m => some m
  | .ok _ => none

/-- The store with the `message:{id}` hashes whose `hGetAll` rejects
removed — the store a fault-free run would have to see in order to produce
what the faulty run produces. -/
def dropFailedMsgs (cfg : FaultCfg) (st : RoomStore) : RoomStore :=
  { st with msgs := st.msgs.filter fun e => ! decide (e.1 ∈ cfg.msgFail) }

/-- A room with two resolvable messages `a` (timestamp 100) and `b`
(timestamp 200). -/
def twoMsgStore : RoomStore :=
  ⟨[(100, "a"), (200, "b")],
   [("a", ⟨"a", "R", "text", "x", "u1", none, none, 100, false⟩),
    ("b", ⟨"b", "R", "text", "y", "u1", none, none, 200, false⟩)], false⟩

/-- Faults: resolving `message:a` rejects. -/
def msgAFails : FaultCfg := ⟨false, false, ["a"], [], [], false, false⟩

/-- Faults: the `user:u1` read of the sender-enhancement step fails at the
store (the wrapper returns `null`, so the lookup yields no record). -/
def userU1Fails : FaultCfg := ⟨false, false, [], ["u1"], [], false, false⟩

/-- Faults: the index key-type check itself rejects. -/
def typeFailsCfg : FaultCfg := ⟨true, false, [], [], [], false, false⟩

/-- Projection of a load result onto its error, if any. -/
def loadErrOf {α : Type} : Except LoadErr α → Option LoadErr
  | .error e => some e
  | .ok _ => none

/-! ## Helper lemmas -/

theorem mem_insertByTs {a m : Msg} {l : List Msg} :
    a ∈ insertByTs m l ↔ a = m ∨ a ∈ l := by
  induction l with
  | nil => simp [insertByTs]
  | cons x xs ih =>
    simp only [insertByTs]
    split
    · simp
    · simp only [List.mem_cons, ih]
      tauto

theorem mem_sortByTs {a : Msg} {l : List Msg} : a ∈ sortByTs l ↔ a ∈ l := by
  induction l with
  | nil => simp [sortByTs]
  | cons x xs ih =>
    simp only [sortByTs, List.foldr_cons] at ih ⊢
    rw [mem_insertByTs, ih, List.mem_cons]

theorem zentLt_asymm {a b : Nat × String} (h : zentLt a b) : ¬ zentLt b a := by
  rcases h with h | ⟨he, hs⟩
  · rintro (h2 | ⟨he2, _⟩)
    · exact Nat.lt_asymm h h2
    · omega
  · rintro (h2 | ⟨he2, hs2⟩)
    · omega
    · exact lt_asymm hs hs2

theorem getLast?_eq_of_pairwise_ub {l : List (Nat × String)} {m : Nat × String}
    (hp : l.Pairwise zentLt) (hm : m ∈ l)
    (hb : ∀ x ∈ l, x = m ∨ zentLt x m) : l.getLast? = some m := by
  induction l with
  | nil => simp at hm
  | cons a t ih =>
    rcases List.pairwise_cons.mp hp with ⟨ha, hpt⟩
    rcases List.mem_cons.mp hm with rfl | hmt
    · cases t with
      | nil => rfl
      | cons b t2 =>
        exfalso
        have hab : zentLt m b := ha b (List.mem_cons_self _ _)
        rcases hb b (by simp) with rfl | hlt
        · exact zentLt_asymm hab hab
        · exact zentLt_asymm hab hlt
    · cases t with
      | nil => simp at hmt
      | cons b t2 =>
        rw [List.getLast?_cons_cons]
        exact ih hpt hmt fun x hx => hb x (List.mem_cons_of_mem _ hx)

/-! ## Claim C6 -/

/-- C6 — confirmed.  For every (uncorrupted) room state, cursor and limit,
the `hasMore` flag of `getMessagesForRoom` is true if and only if strictly
more than `limit` index entries exist at or before the query cursor: the
function requests `limit + 1` ids and compares the returned count with
`limit`. -/
theorem C6_hasMore_iff_more_than_limit (st : RoomStore)
    (beforeTimestamp : Option Nat) (limit : Nat)
    (hC : st.indexCorrupt = false) :
    (getMessagesForRoom st beforeTimestamp limit).1.hasMore = true ↔
      limit < entriesAtOrBefore st beforeTimestamp := by
  have hlen : (zrevrangebyscore st.index (maxScoreOf beforeTimestamp) (limit + 1)).length
      = min (limit + 1) (entriesAtOrBefore st beforeTimestamp) := by
    unfold zrevrangebyscore entriesAtOrBefore
    rw [List.length_take, List.length_map, List.filter_reverse, List.length_reverse]
  unfold getMessagesForRoom
  rw [hC]
  by_cases he : zrevrangebyscore st.index (maxScoreOf beforeTimestamp) (limit + 1) = []
  · have h0 : min (limit + 1) (entriesAtOrBefore st beforeTimestamp) = 0 := by
      rw [← hlen, he]; rfl
    simp only [Bool.false_eq_true, if_false, he, if_pos rfl, emptyPage]
    constructor
    · intro h; cases h
    · intro h; omega
  · simp only [Bool.false_eq_true, if_false, if_neg he, decide_eq_true_eq]
    rw [hlen]
    omega

/-- C6 witness: on the scenario store with limit 2, three index entries lie
at or before the (absent) cursor, and `hasMore` is indeed reported. -/
theorem C6_witness :
    (getMessagesForRoom scenarioStore none 2).1.hasMore = true :=
  (C6_hasMore_iff_more_than_limit scenarioStore none 2 rfl).mpr (by decide)

/-! ## Claim C1 -/

/-- C1 — counterexample.  The cursor is *not* exclusive: on the room with
messages at timestamps 100, 200, 300 and limit 2, the second call with
`before = 200` returns the messages at timestamps 100 *and* 200 — not
exactly `[100]` as the claim states — so message `m2` (timestamp 200) is
returned by both the first and the second page, and concatenating the
pages duplicates it. -/
theorem C1_counterexample :
    (getMessagesForRoom scenarioStore (some 200) 2).1.messages.map Msg.timestamp
        = [100, 200]
    ∧ (getMessagesForRoom scenarioStore (some 200) 2).1.messages.map Msg.timestamp
        ≠ [100]
    ∧ "m2" ∈ (getMessagesForRoom scenarioStore none 2).1.messages.map Msg.id
    ∧ "m2" ∈ (getMessagesForRoom scenarioStore (some 200) 2).1.messages.map Msg.id := by
  decide

/-- C1 — amended.  `getMessagesForRoom` queries the ordered index
descending from the supplied `beforeTimestamp` *inclusively* (a plain score
bound in `ZREVRANGEBYSCORE`), so paging with the previous page's
`oldestTimestamp` as the next cursor returns the boundary message again:
whenever a non-zero cursor `t` hits an index entry `(t, id)` that is the
greatest entry at or below the cursor, and that entry resolves to a
message, the next page contains that message once more.  On the concrete
scenario (timestamps 100, 200, 300, limit 2) the first call returns
`[200, 300]` with `hasMore = true` and `oldestTimestamp = 200`, and the
second call with `before = 200` returns `[100, 200]` (not `[100]`) with
`hasMore = false`. -/
theorem C1_inclusive_cursor_pagination (st : RoomStore) (t : Nat) (id : String)
    (msg : Msg) (limit : Nat)
    (hC : st.indexCorrupt = false)
    (hP : st.index.Pairwise zentLt)
    (hMem : (t, id) ∈ st.index)
    (hT : t ≠ 0)
    (hL : 1 ≤ limit)
    (hUB : ∀ e ∈ st.index, cursorPred (some t) e = true → e = (t, id) ∨ zentLt e (t, id))
    (hGet : getMessage st id = some msg) :
    msg ∈ (getMessagesForRoom st (some t) limit).1.messages
    ∧ ((getMessagesForRoom scenarioStore none 2).1.messages.map Msg.id = ["m2", "m3"]
      ∧ (getMessagesForRoom scenarioStore none 2).1.hasMore = true
      ∧ (getMessagesForRoom scenarioStore none 2).1.oldestTimestamp = some 200
      ∧ (getMessagesForRoom scenarioStore (some 200) 2).1.messages.map Msg.id = ["m1", "m2"]
      ∧ (getMessagesForRoom scenarioStore (some 200) 2).1.hasMore = false
      ∧ (getMessagesForRoom scenarioStore (some 200) 2).1.oldestTimestamp = some 100) := by
  constructor
  · have hmax : maxScoreOf (some t) = some t := by simp [maxScoreOf, hT]
    have hpf : (st.index.filter (cursorPred (some t))).Pairwise zentLt :=
      hP.filter _
    have hmemf : (t, id) ∈ st.index.filter (cursorPred (some t)) :=
      List.mem_filter.mpr ⟨hMem, by simp [cursorPred]⟩
    have hubf : ∀ x ∈ st.index.filter (cursorPred (some t)),
        x = (t, id) ∨ zentLt x (t, id) := fun x hx =>
      hUB x (List.mem_filter.mp hx).1 (List.mem_filter.mp hx).2
    have hlast : (st.index.filter (cursorPred (some t))).getLast? = some (t, id) :=
      getLast?_eq_of_pairwise_ub hpf hmemf hubf
    have hhead : (st.index.filter (cursorPred (some t))).reverse.head? = some (t, id) := by
      rw [List.head?_reverse]; exact hlast
    obtain ⟨rest, hrev⟩ :
        ∃ rest, (st.index.filter (cursorPred (some t))).reverse = (t, id) :: rest := by
      cases hfr : (st.index.filter (cursorPred (some t))).reverse with
      | nil => rw [hfr] at hhead; cases hhead
      | cons a r =>
        rw [hfr] at hhead
        simp only [List.head?_cons, Option.some.injEq] at hhead
        exact ⟨r, by rw [hhead]⟩
    have hq : zrevrangebyscore st.index (some t) (limit + 1)
        = id :: ((rest.map Prod.snd).take limit) := by
      unfold zrevrangebyscore
      rw [List.filter_reverse, hrev, List.map_cons, List.take_succ_cons]
    obtain ⟨l2, rfl⟩ : ∃ l2, limit = l2 + 1 := ⟨limit - 1, by omega⟩
    unfold getMessagesForRoom
    rw [hC]
    simp only [Bool.false_eq_true, if_false, hmax, hq]
    rw [if_neg (by simp)]
    simp only [List.take_succ_cons, List.filterMap_cons, hGet]
    exact mem_sortByTs.mpr (List.mem_cons_self _ _)
  · decide

/-- C1 witness: on the scenario store, the boundary entry `(200, m2)` of the
`before = 200` query satisfies every hypothesis, and `m2`'s message is
indeed a member of the second page. -/
theorem C1_witness :
    scenarioMsg2 ∈ (getMessagesForRoom scenarioStore (some 200) 2).1.messages :=
  (C1_inclusive_cursor_pagination scenarioStore 200 "m2" scenarioMsg2 2
    rfl (by decide) (by decide) (by decide) (by decide) (by decide) (by decide)).1

/-! ## Branch-evaluation lemmas for `validateSession` -/

theorem validateSession_empty_params {st : SessStore} {u sid : String} {now : Nat}
    (h : u = "" ∨ sid = "") :
    validateSession st u sid now = (⟨false, some .invalidParameters⟩, st) := by
  unfold validateSession
  rw [if_pos h]

theorem validateSession_active_none {st : SessStore} {u sid : String} {now : Nat}
    (hu : u ≠ "") (hsid : sid ≠ "") (hact : st.activeSessionKey = none) :
    validateSession st u sid now
      = (⟨false, some .invalidSession⟩, removeAllUserSessions st) := by
  obtain ⟨sk, sik, ak, uk⟩ := st
  simp only [SessStore.activeSessionKey] at hact
  subst hact
  simp [validateSession, hu, hsid]

theorem validateSession_mismatch {st : SessStore} {u sid a : String} {now : Nat}
    (hu : u ≠ "") (hsid : sid ≠ "") (hact : st.activeSessionKey = some a)
    (hne : a ≠ sid) :
    validateSession st u sid now
      = (⟨false, some .invalidSession⟩, removeAllUserSessions st) := by
  obtain ⟨sk, sik, ak, uk⟩ := st
  simp only [SessStore.activeSessionKey] at hact
  subst hact
  simp [validateSession, hu, hsid, hne]

theorem validateSession_notfound {st : SessStore} {u sid : String} {now : Nat}
    (hu : u ≠ "") (hsid : sid ≠ "") (hact : st.activeSessionKey = some sid)
    (hdata : st.sessionKey = none) :
    validateSession st u sid now = (⟨false, some .sessionNotFound⟩, st) := by
  obtain ⟨sk, sik, ak, uk⟩ := st
  simp only [SessStore.activeSessionKey, SessStore.sessionKey] at hact hdata
  subst hact
  subst hdata
  simp [validateSession, hu, hsid]

theorem validateSession_expired {st : SessStore} {u sid : String} {now : Nat}
    {d : SessionData}
    (hu : u ≠ "") (hsid : sid ≠ "") (hact : st.activeSessionKey = some sid)
    (hdata : st.sessionKey = some d)
    (hexp : now - d.lastActivity > SESSION_TTL * 1000) :
    validateSession st u sid now
      = (⟨false, some .sessionExpired⟩, removeAllUserSessions st) := by
  obtain ⟨sk, sik, ak, uk⟩ := st
  simp only [SessStore.activeSessionKey, SessStore.sessionKey] at hact hdata
  subst hact
  subst hdata
  simp [validateSession, hu, hsid, hexp]

theorem validateSession_ok {st : SessStore} {u sid : String} {now : Nat}
    {d : SessionData}
    (hu : u ≠ "") (hsid : sid ≠ "") (hact : st.activeSessionKey = some sid)
    (hdata : st.sessionKey = some d)
    (hexp : ¬ now - d.lastActivity > SESSION_TTL * 1000) :
    (validateSession st u sid now).1 = ⟨true, none⟩ := by
  obtain ⟨sk, sik, ak, uk⟩ := st
  simp only [SessStore.activeSessionKey, SessStore.sessionKey] at hact hdata
  subst hact
  subst hdata
  simp [validateSession, hu, hsid, hexp]

/-! ## Claim C2 -/

/-- C2 — counterexample.  After `create(u, s1)` then `create(u, s2)`,
validating the stale `s1` correctly reports invalid — but that validation
wipes *all* of the user's session records, so an immediately following
`validate(u, s2)` also reports invalid, although no TTL has elapsed and no
newer `createSession` superseded `s2`; the claim's "valid until the TTL
elapses or a newer createSession supersedes it" fails. -/
theorem C2_counterexample :
    (validateSession twoCreateStore "u" "s1" 0).1.isValid = false
    ∧ (validateSession (validateSession twoCreateStore "u" "s1" 0).2
        "u" "s2" 0).1.isValid = false := by
  decide

/-- C2 — amended.  After `createSession(u, m1)` then `createSession(u, m2)`:
validating `s1` reports invalid, validating `s2` reports valid while the
TTL has not elapsed, and no session id other than `s2` can validate —
at most one session id is active per user.  (Validity of `s2` persists only
absent intervening invalid validations: as the counterexample shows, an
invalid outcome — e.g. validating the stale `s1` — wipes all of the user's
records, after which even `s2` reports invalid.) -/
theorem C2_session_exclusivity (st0 : SessStore) (u s1 s2 : String)
    (t1 t2 t3 : Nat) (m1 m2 : Metadata)
    (hu : u ≠ "") (hs1 : s1 ≠ "") (hs2 : s2 ≠ "") (hne : s1 ≠ s2)
    (httl : t3 - t2 ≤ SESSION_TTL * 1000) :
    (validateSession ((createSession ((createSession st0 u t1 s1 m1).1)
        u t2 s2 m2).1) u s1 t3).1.isValid = false
    ∧ (validateSession ((createSession ((createSession st0 u t1 s1 m1).1)
        u t2 s2 m2).1) u s2 t3).1.isValid = true
    ∧ ∀ sid, (validateSession ((createSession ((createSession st0 u t1 s1 m1).1)
        u t2 s2 m2).1) u sid t3).1.isValid = true → sid = s2 := by
  have hact : ((createSession ((createSession st0 u t1 s1 m1).1)
      u t2 s2 m2).1).activeSessionKey = some s2 := rfl
  have hsess : ((createSession ((createSession st0 u t1 s1 m1).1)
      u t2 s2 m2).1).sessionKey = some ⟨u, s2, t2, t2, m2⟩ := rfl
  have hval : ∀ sid, sid ≠ "" →
      (validateSession ((createSession ((createSession st0 u t1 s1 m1).1)
        u t2 s2 m2).1) u sid t3).1
      = if s2 = sid then ⟨true, none⟩ else ⟨false, some .invalidSession⟩ := by
    intro sid hsid
    by_cases h : s2 = sid
    · rw [if_pos h]
      subst h
      exact validateSession_ok hu hsid hact hsess (by simp; omega)
    · rw [if_neg h, validateSession_mismatch hu hsid hact h]
  refine ⟨?_, ?_, ?_⟩
  · rw [hval s1 hs1, if_neg fun h => hne h.symm]
  · rw [hval s2 hs2, if_pos rfl]
  · intro sid hv
    by_cases hsid : sid = ""
    · subst hsid
      rw [validateSession_empty_params (Or.inr rfl)] at hv
      exact absurd hv (by simp)
    · rw [hval sid hsid] at hv
      by_cases h : s2 = sid
      · exact h.symm
      · rw [if_neg h] at hv
        exact absurd hv (by simp)

/-- C2 witness: concrete sessions `s1`, `s2` for user `u` at time 0. -/
theorem C2_witness :
    (validateSession twoCreateStore "u" "s1" 0).1.isValid = false
    ∧ (validateSession twoCreateStore "u" "s2" 0).1.isValid = true
    ∧ ∀ sid, (validateSession twoCreateStore "u" sid 0).1.isValid = true → sid = "s2" :=
  C2_session_exclusivity SessStore.empty "u" "s1" "s2" 0 0 0 sampleMeta sampleMeta
    (by decide) (by decide) (by decide) (by decide) (by decide)

/-! ## Claim C3 -/

/-- C3 — counterexample.  With the `active_session` and `user_sessions`
pointers naming session `a` but the `session:{u}` data record absent,
`validateSession` reports the invalid outcome `SESSION_NOT_FOUND` and
returns with the store untouched — no key is deleted, contradicting the
claim that every invalid outcome performs a full wipe. -/
theorem C3_counterexample :
    (validateSession sessionDataMissingStore "u" "a" 0).1.isValid = false
    ∧ (validateSession sessionDataMissingStore "u" "a" 0).1.error
        = some .sessionNotFound
    ∧ (validateSession sessionDataMissingStore "u" "a" 0).2 = sessionDataMissingStore
    ∧ ¬ ((validateSession sessionDataMissingStore "u" "a" 0).2).wiped := by
  decide

/-- C3 — amended.  For every invalid `validateSession` outcome with
non-empty parameters, either the user's session records are fully wiped
(`removeAllUserSessions` ran — the absent/mismatched-pointer and expiry
reasons), or the outcome is `SESSION_NOT_FOUND` (session data absent), in
which case the store is returned *unchanged*: the data-absent invalid
branch performs no wipe. -/
theorem C3_invalid_outcome_wipe (st : SessStore) (u sid : String) (now : Nat)
    (hu : u ≠ "") (hsid : sid ≠ "")
    (hinv : (validateSession st u sid now).1.isValid = false) :
    ((validateSession st u sid now).2 = removeAllUserSessions st
      ∧ ((validateSession st u sid now).2).wiped)
    ∨ ((validateSession st u sid now).1.error = some .sessionNotFound
      ∧ (validateSession st u sid now).2 = st) := by
  have hwiped : (removeAllUserSessions st).wiped := ⟨rfl, rfl, rfl⟩
  cases hact : st.activeSessionKey with
  | none =>
    rw [validateSession_active_none hu hsid hact]
    exact Or.inl ⟨rfl, hwiped⟩
  | some a =>
    by_cases hne : a = sid
    · subst hne
      cases hdata : st.sessionKey with
      | none =>
        rw [validateSession_notfound hu hsid hact hdata]
        exact Or.inr ⟨rfl, rfl⟩
      | some d =>
        by_cases hexp : now - d.lastActivity > SESSION_TTL * 1000
        · rw [validateSession_expired hu hsid hact hdata hexp]
          exact Or.inl ⟨rfl, hwiped⟩
        · rw [validateSession_ok hu hsid hact hdata hexp] at hinv
          exact absurd hinv (by simp)
    · rw [validateSession_mismatch hu hsid hact hne]
      exact Or.inl ⟨rfl, hwiped⟩

/-! ## Claim C4 -/

/-- C4 — code-bug evaluation.  User `u1`, in room `r1` with an in-flight
pagination guard and a retry counter, triggers an AI generation
(`wayneAI`, started at time 5) and then leaves the room.  `leaveRoom`'s
cleanup deletes the pagination guard and the retry counter for `(r1, u1)`,
but the streaming session survives: the cleanup filter compares
`session.userId === socket.user.id`, yet `handleAIResponse` never stores a
`userId` on the session object, so the comparison is `undefined === "u1"`
and no session ever matches — contradicting both the claim and the
cleanup's own evident intent. -/
theorem C4_leaveRoom_cleanup_evaluation :
    (leaveRoomCleanup (startStreamingSession c4Start "r1" "wayneAI" 5).1
        "r1" "u1").streamingSessions.map Prod.fst = ["wayneAI-5"]
    ∧ (leaveRoomCleanup (startStreamingSession c4Start "r1" "wayneAI" 5).1
        "r1" "u1").messageQueues = []
    ∧ (leaveRoomCleanup (startStreamingSession c4Start "r1" "wayneAI" 5).1
        "r1" "u1").messageLoadRetries = [] := by
  decide

/-! ## Claim C5 -/

/-- C5 — confirmed.  Whenever the handshake carries a token and session id,
the token resolves to a user and a live connection already exists for that
user, the middleware's action trace begins with: `duplicate_login` to the
existing socket carrying the new connection's device and IP metadata, a
fixed 10000 ms wait, `session_ended` to the existing socket, its forcible
disconnect — and only then the session validation; admission of the new
connection cannot proceed before the grace window has elapsed (the source's
blocking variant). -/
theorem C5_duplicate_login_blocking (ctx : HandshakeCtx) (e uid sid : String)
    (htok : ctx.tokenPresent = true) (hsid : ctx.sessionId = some sid)
    (huid : ctx.decodedUserId = some uid) (hex : ctx.existingSocketId = some e) :
    (authMiddleware ctx).take 5
      = [ .emitDuplicateLogin e ctx.deviceInfo ctx.ipAddress
        , .waitMs 10000
        , .emitSessionEnded e
        , .disconnectSocket e
        , .callValidateSession uid sid ] := by
  obtain ⟨tok, sid0, du, ex, dev, ip, sv, ue⟩ := ctx
  simp only [HandshakeCtx.tokenPresent, HandshakeCtx.sessionId,
    HandshakeCtx.decodedUserId, HandshakeCtx.existingSocketId] at htok hsid huid hex
  subst htok hsid huid hex
  simp [authMiddleware, handleDuplicateLogin, DUPLICATE_LOGIN_TIMEOUT]

/-- C5 witness: a concrete duplicate-login handshake. -/
theorem C5_witness :
    (authMiddleware ⟨true, some "sid1", some "u7", some "sockE",
        "dev", "ip", true, true⟩).take 5
      = [ .emitDuplicateLogin "sockE" "dev" "ip"
        , .waitMs 10000
        , .emitSessionEnded "sockE"
        , .disconnectSocket "sockE"
        , .callValidateSession "u7" "sid1" ] :=
  C5_duplicate_login_blocking
    ⟨true, some "sid1", some "u7", some "sockE", "dev", "ip", true, true⟩
    "sockE" "u7" "sid1" rfl rfl rfl rfl

/-! ## Claim C7 -/

/-- C7 — confirmed.  From a clean retry counter, for every pattern of
`loadMessages` successes and failures: the per-key counter entry is deleted
on exit (no stuck counter after failure or success), at most 3 backoff
delays are slept, each delay is `min(2000 * 2 ** k, 10000)` for its retry
index `k` (base 2 s, doubling, capped at 10 s), and if every attempt fails
the call ends in the retry-exhausted error after the delays 2000, 4000,
8000 ms. -/
theorem C7_retry_backoff (oracle : Nat → Bool) :
    (loadMessagesWithRetry oracle 0 none 4).2.1 = none
    ∧ (loadMessagesWithRetry oracle 0 none 4).2.2.length ≤ 3
    ∧ (loadMessagesWithRetry oracle 0 none 4).2.2
        = (List.range (loadMessagesWithRetry oracle 0 none 4).2.2.length).map
            (fun k => min (RETRY_DELAY * 2 ^ k) 10000)
    ∧ ((∀ k, oracle k = false) →
        (loadMessagesWithRetry oracle 0 none 4).1 = .retryExhausted
        ∧ (loadMessagesWithRetry oracle 0 none 4).2.2 = [2000, 4000, 8000]) := by
  by_cases h0 : oracle 0 = true
  · have hr : loadMessagesWithRetry oracle 0 none 4 = (.loaded, none, []) := by
      simp [loadMessagesWithRetry, h0, MAX_RETRIES]
    rw [hr]
    exact ⟨rfl, by simp, by simp, fun h => absurd (h 0) (by simp [h0])⟩
  · by_cases h1 : oracle 1 = true
    · have hr : loadMessagesWithRetry oracle 0 none 4 = (.loaded, none, [2000]) := by
        simp [loadMessagesWithRetry, h0, h1, MAX_RETRIES, RETRY_DELAY]
      rw [hr]
      exact ⟨rfl, by simp, by decide, fun h => absurd (h 1) (by simp [h1])⟩
    · by_cases h2 : oracle 2 = true
      · have hr : loadMessagesWithRetry oracle 0 none 4
            = (.loaded, none, [2000, 4000]) := by
          simp [loadMessagesWithRetry, h0, h1, h2, MAX_RETRIES, RETRY_DELAY]
        rw [hr]
        exact ⟨rfl, by simp, by decide, fun h => absurd (h 2) (by simp [h2])⟩
      · have hr : loadMessagesWithRetry oracle 0 none 4
            = (.retryExhausted, none, [2000, 4000, 8000]) := by
          simp [loadMessagesWithRetry, h0, h1, h2, MAX_RETRIES, RETRY_DELAY]
        rw [hr]
        exact ⟨rfl, by simp, by decide, fun _ => ⟨rfl, rfl⟩⟩

/-- C7 witness: with every attempt failing, the loader ends retry-exhausted
after backoffs of 2, 4 and 8 seconds, with the counter deleted. -/
theorem C7_witness :
    (loadMessagesWithRetry (fun _ => false) 0 none 4).2.1 = none
    ∧ (loadMessagesWithRetry (fun _ => false) 0 none 4).1 = .retryExhausted
    ∧ (loadMessagesWithRetry (fun _ => false) 0 none 4).2.2 = [2000, 4000, 8000] := by
  have h := C7_retry_backoff (fun _ => false)
  have h2 := h.2.2.2 fun k => rfl
  exact ⟨h.1, h2.1, h2.2⟩

/-! ## Claim C9 -/

/-- C9 — confirmed.  For every AI generation that fails mid-stream —
whether the generator's `onError` callback fires or the generation call
throws — `handleAIResponse` deletes the ephemeral streaming session,
broadcasts an `aiMessageError` event to the room, and appends nothing to
the room's timeline, so any subsequent `getMessagesForRoom` fetch is
exactly what it would have been before the generation started. -/
theorem C9_ai_error_no_persist (st : ChatLocalState) (store : RoomStore)
    (roomId aiName : String) (now : Nat) (beh : GenBehavior)
    (newMsgId : String) (completeTime : Nat) (msg : String)
    (hout : beh.outcome = .errorCb msg ∨ beh.outcome = .thrown msg) :
    (handleAIResponse st store roomId aiName now beh newMsgId completeTime).2.1 = store
    ∧ ((handleAIResponse st store roomId aiName now beh newMsgId
        completeTime).1.streamingSessions.find?
          fun e => e.1 = aiName ++ "-" ++ toString now) = none
    ∧ .aiMessageError (aiName ++ "-" ++ toString now) msg
        ∈ (handleAIResponse st store roomId aiName now beh newMsgId completeTime).2.2
    ∧ ∀ b l, getMessagesForRoom
        (handleAIResponse st store roomId aiName now beh newMsgId completeTime).2.1 b l
        = getMessagesForRoom store b l := by
  have hfind : ∀ (l : List (String × StreamSession)) (k : String),
      (mapDel l k).find? (fun e => e.1 = k) = none := by
    intro l k
    apply List.find?_eq_none.mpr
    intro x hx
    have hxf := List.of_mem_filter hx
    simpa using hxf
  rcases hout with h | h <;>
  · unfold handleAIResponse
    rw [h]
    refine ⟨rfl, hfind _ _, ?_, fun b l => rfl⟩
    simp
    exact Or.inr rfl

/-- C9 witness: a concrete `wayneAI` generation in room `R` that streams two
chunks and then fails leaves the scenario timeline untouched. -/
theorem C9_witness :
    (handleAIResponse ChatLocalState.empty scenarioStore "R" "wayneAI" 7
        ⟨["he", "llo"], .errorCb "boom"⟩ "mX" 9).2.1 = scenarioStore
    ∧ ((handleAIResponse ChatLocalState.empty scenarioStore "R" "wayneAI" 7
        ⟨["he", "llo"], .errorCb "boom"⟩ "mX" 9).1.streamingSessions.find?
          fun e => e.1 = "wayneAI" ++ "-" ++ toString 7) = none
    ∧ .aiMessageError ("wayneAI" ++ "-" ++ toString 7) "boom"
        ∈ (handleAIResponse ChatLocalState.empty scenarioStore "R" "wayneAI" 7
            ⟨["he", "llo"], .errorCb "boom"⟩ "mX" 9).2.2
    ∧ ∀ b l, getMessagesForRoom
        (handleAIResponse ChatLocalState.empty scenarioStore "R" "wayneAI" 7
          ⟨["he", "llo"], .errorCb "boom"⟩ "mX" 9).2.1 b l
        = getMessagesForRoom scenarioStore b l :=
  C9_ai_error_no_persist ChatLocalState.empty scenarioStore "R" "wayneAI" 7
    ⟨["he", "llo"], .errorCb "boom"⟩ "mX" 9 "boom" (Or.inl rfl)

/-! ## Claim C8 -/

theorem jsTrim_replicate {n : Nat} {c : Char} (hc : c.isWhitespace = false) :
    jsTrim (String.mk (List.replicate n c)) = String.mk (List.replicate n c) := by
  cases n with
  | zero => rfl
  | succ n2 =>
    unfold jsTrim
    rw [show (String.mk (List.replicate (n2 + 1) c)).data
        = List.replicate (n2 + 1) c from rfl]
    rw [List.replicate_succ, List.dropWhile_cons, hc]
    simp only [Bool.false_eq_true, if_false]
    rw [← List.replicate_succ, List.reverse_replicate, List.replicate_succ,
      List.dropWhile_cons, hc]
    simp only [Bool.false_eq_true, if_false]
    rw [← List.replicate_succ, List.reverse_replicate]

theorem bigContent_trim : jsTrim bigContent = bigContent := by
  unfold bigContent
  exact jsTrim_replicate (by decide)

theorem bigContent_ne_empty : bigContent ≠ "" := by
  intro h
  have h2 : List.replicate 10001 'a' = "".data := congrArg String.data h
  rw [show "".data = [] from rfl, List.replicate_eq_nil_iff] at h2
  exact absurd h2 (by decide)

theorem bigContent_length : bigContent.length = 10001 := by
  rw [show bigContent.length = (List.replicate 10001 'a').length from rfl,
    List.length_replicate]

/-- C8 — code-bug evaluation.  A text `chatMessage` whose trimmed content is
10001 characters long passes the handler's only content checks (presence and
non-emptiness), is persisted to the timeline with all 10001 characters, and
no validation error is emitted — although the repository's own model layer,
`Message.create` in `models/Message.js`, rejects the identical payload with
the 10000-character validation error the claim describes. -/
theorem C8_oversized_content_persisted :
    (chatMessageTextHandler RoomStore.empty "r1" "u1" bigContent
        true true "m1" 100).2.1 = true
    ∧ (chatMessageTextHandler RoomStore.empty "r1" "u1" bigContent
        true true "m1" 100).2.2 = none
    ∧ ((chatMessageTextHandler RoomStore.empty "r1" "u1" bigContent
        true true "m1" 100).1.msgs.map fun e => e.2.content.length) = [10001]
    ∧ exceptErrMsg (messageModelCreate RoomStore.empty "r1" "u1" "text"
        bigContent none none "m1" 100)
      = some "메시지는 10000자를 초과할 수 없습니다." := by
  have hhandler : chatMessageTextHandler RoomStore.empty "r1" "u1" bigContent
      true true "m1" 100
      = (createMessage RoomStore.empty "r1" "m1" 100 "text" bigContent "u1"
          none none, true, none) := by
    unfold chatMessageTextHandler
    rw [bigContent_trim, if_neg (by simp), if_neg (by simp),
      if_neg bigContent_ne_empty]
  have hmodel : messageModelCreate RoomStore.empty "r1" "u1" "text" bigContent
      none none "m1" 100 = .error "메시지는 10000자를 초과할 수 없습니다." := by
    unfold messageModelCreate
    rw [if_neg (by decide), if_neg (by decide),
      if_neg (by rw [bigContent_trim]; exact fun hand => bigContent_ne_empty hand.2),
      if_neg (by simp), if_neg (by simp),
      if_pos (by rw [bigContent_length]; omega)]
  refine ⟨by rw [hhandler], by rw [hhandler], ?_, by rw [hmodel]; rfl⟩
  rw [hhandler]
  show ((createMessage RoomStore.empty "r1" "m1" 100 "text" bigContent "u1"
      none none).msgs.map fun e => e.2.content.length) = [10001]
  unfold createMessage RoomStore.empty
  simp [bigContent_length]

/-! ## Claim C10 -/

theorem find?_filter_of_imp {α : Type} (l : List α) (p q : α → Bool)
    (h : ∀ e, p e = true → q e = true) :
    (l.filter q).find? p = l.find? p := by
  induction l with
  | nil => rfl
  | cons a t ih =>
    by_cases hp : p a = true
    · rw [List.filter_cons, if_pos (h a hp), List.find?_cons_of_pos _ hp,
        List.find?_cons_of_pos _ hp]
    · rw [List.find?_cons_of_neg _ hp, List.filter_cons]
      by_cases hq : q a = true
      · rw [if_pos hq, List.find?_cons_of_neg _ hp, ih]
      · rw [if_neg hq, ih]

theorem getMessageF_eq_dropFailed (cfg : FaultCfg) (st : RoomStore)
    (mid : String) :
    getMessageF cfg st mid = getMessage (dropFailedMsgs cfg st) mid := by
  unfold getMessageF getMessage dropFailedMsgs
  by_cases h : mid ∈ cfg.msgFail
  · rw [if_pos h]
    have hnone : ((st.msgs.filter fun e => ! decide (e.1 ∈ cfg.msgFail)).find?
        fun e => e.1 = mid) = none := by
      apply List.find?_eq_none.mpr
      intro x hx
      have hxf := List.of_mem_filter hx
      simp only [Bool.not_eq_eq_eq_not, Bool.not_true, decide_eq_false_iff_not] at hxf
      simp only [decide_eq_true_eq]
      intro hxe
      exact hxf (hxe ▸ h)
    rw [hnone]
    rfl
  · rw [if_neg h]
    rw [find?_filter_of_imp]
    intro e he
    simp only [decide_eq_true_eq] at he
    simp [he, h]

/-- C10 — counterexample.  With messages `a` (timestamp 100) and `b`
(timestamp 200) and the resolution of `message:a` throwing, the internal
message-resolution step fails yet `getMessagesForRoom` returns the
*partial* page containing `b` — not the empty page
`{messages: [], hasMore: false, oldestTimestamp: null}` the claim
prescribes for any internal throw. -/
theorem C10_counterexample :
    (getMessagesForRoomF msgAFails twoMsgStore none 30).1.messages.map Msg.id = ["b"]
    ∧ (getMessagesForRoomF msgAFails twoMsgStore none 30).1 ≠ emptyPage := by
  decide

/-- C10 — amended.  `getMessagesForRoom` never propagates a store error,
but the shape of its recovery depends on which step fails: a thrown
key-type check or index range query (the unwrapped `cluster` calls) is
caught and yields the empty page, while a failed message resolution yields
`null` inside `getMessage` and only drops that message — the call behaves
exactly like a fault-free run on the store with the failing message
records removed, so the page may be partial and non-empty.  The claimed
consequence holds: only the caller-side 10-second timeout, never a store
error, surfaces as a thrown load failure — the `redisClient` wrapper turns
store errors of the sender/file enhancement and read-marking into
`null`/`false` results, so `loadMessages` rejects exactly when the timer
fires. -/
theorem C10_page_load_fault_recovery :
    (∀ cfg st b l, cfg.typeFails = true ∨ cfg.zrangeFails = true →
      (getMessagesForRoomF cfg st b l).1 = emptyPage)
    ∧ (∀ cfg st b l, cfg.typeFails = false → cfg.zrangeFails = false →
      (getMessagesForRoomF cfg st b l).1
        = (getMessagesForRoom (dropFailedMsgs cfg st) b l).1)
    ∧ (∀ cfg st users b l, loadErrOf (loadMessagesF cfg st users b l)
        = if cfg.timeoutFires = true then some .timeout else none) := by
  refine ⟨?_, ?_, ?_⟩
  · intro cfg st b l h
    unfold getMessagesForRoomF
    rcases h with h | h
    · rw [h]
      simp
    · rw [h]
      by_cases ht : cfg.typeFails = true
      · simp [ht]
      · simp only [Bool.not_eq_true] at ht
        rw [ht]
        by_cases hc : st.indexCorrupt = true
        · simp [hc]
        · simp only [Bool.not_eq_true] at hc
          rw [hc]
          simp
  · intro cfg st b l ht hz
    have hfun : getMessageF cfg st = getMessage (dropFailedMsgs cfg st) :=
      funext (getMessageF_eq_dropFailed cfg st)
    have hidx : (dropFailedMsgs cfg st).index = st.index := rfl
    have hcor : (dropFailedMsgs cfg st).indexCorrupt = st.indexCorrupt := rfl
    unfold getMessagesForRoomF getMessagesForRoom
    rw [ht, hz, hfun, hidx, hcor]
    simp only [Bool.false_eq_true, if_false]
    by_cases hc : st.indexCorrupt = true
    · rw [if_pos hc, if_pos hc]
    · rw [if_neg hc, if_neg hc]
      by_cases he : zrevrangebyscore st.index (maxScoreOf b) (l + 1) = []
      · rw [if_pos he, if_pos he]
      · rw [if_neg he, if_neg he]
  · intro cfg st users b l
    unfold loadMessagesF
    by_cases ht : cfg.timeoutFires = true
    · rw [if_pos ht, if_pos ht]
      rfl
    · rw [if_neg ht, if_neg ht]
      rfl

/-- C10 witness: a type-check fault yields the empty page, the `message:a`
resolution fault behaves like a fault-free run on the store without record
`a`, and a load whose sender lookup fails at the store — but whose timer
does not fire — still completes without any thrown error. -/
theorem C10_witness :
    (getMessagesForRoomF typeFailsCfg twoMsgStore none 30).1 = emptyPage
    ∧ (getMessagesForRoomF msgAFails twoMsgStore none 30).1
      = (getMessagesForRoom (dropFailedMsgs msgAFails twoMsgStore) none 30).1
    ∧ loadErrOf (loadMessagesF userU1Fails scenarioStore [] none 30) = none :=
  ⟨C10_page_load_fault_recovery.1 typeFailsCfg twoMsgStore none 30 (Or.inl rfl),
   C10_page_load_fault_recovery.2.1 msgAFails twoMsgStore none 30 rfl rfl,
   by
    have h := C10_page_load_fault_recovery.2.2 userU1Fails scenarioStore [] none 30
    simpa using h⟩

/-- C3 witness: the data-absent store hits the no-wipe branch. -/
theorem C3_witness :
    ((validateSession sessionDataMissingStore "u" "a" 0).2
        = removeAllUserSessions sessionDataMissingStore
      ∧ ((validateSession sessionDataMissingStore "u" "a" 0).2).wiped)
    ∨ ((validateSession sessionDataMissingStore "u" "a" 0).1.error
        = some .sessionNotFound
      ∧ (validateSession sessionDataMissingStore "u" "a" 0).2
        = sessionDataMissingStore) :=
  C3_invalid_outcome_wipe sessionDataMissingStore "u" "a" 0
    (by decide) (by decide) (by decide)

end Chat
